import Mathlib

/-!
Verification of the TCP load-balancer proxy (`main.go`, the richer of the
two proxy variants in the repository, which the design document designates
as the target design).

The Go code is shallowly embedded:
* pure data (the configuration, the default values) becomes Lean structures
  and definitions;
* the external world (file system, JSON decoder, network dial results, the
  two `io.Copy` tasks, accepted connections, delivered signals) is passed in
  explicitly as data describing what the environment did;
* `math/rand`'s process-wide generator, re-seeded from the clock on every
  call of `chooseBackend`, is modelled by an explicit entropy parameter
  `r : Nat`; `rand.Intn n` returns `r % n` for `n > 0` and panics for
  `n = 0`, modelled by `Option` (`none` = panic);
* the straight-line body of `proxy` (including Go's LIFO `defer` semantics
  and the `sync.WaitGroup` join of the two copy goroutines) is embedded as
  the trace of events it performs, in order; a copy goroutine that never
  terminates is an `Option.none` outcome, in which case `wg.Wait()` blocks
  forever and the events after it never happen;
* the `for { Accept ... }` loop of `main` is a step function on a program
  phase, driven by a list of per-iteration environment inputs.
-/

namespace LoadBalancer

/-- Configuration record, from `type Config struct` in main.go. -/
structure Config where
  listenAddr : String
  server : List String
  connectionTimeout : Int
deriving Repr, DecidableEq

/-- Default listen address, from `DefaultListenAddr` in main.go. -/
def DefaultListenAddr : String := "localhost:8080"

/-- Default backend servers, from `DefaultServers` in main.go. -/
def DefaultServers : List String :=
  ["localhost:5001", "localhost:5002", "localhost:5003"]

/-- Default connection timeout in seconds, from `DefaultConnectionTimeout`. -/
def DefaultConnectionTimeout : Int := 60

/-- Configuration value built purely from the defaults, as `loadConfig`
builds it both on the open-error path and as the pre-filled decode target. -/
def defaultConfig : Config :=
  { listenAddr := DefaultListenAddr
    server := DefaultServers
    connectionTimeout := DefaultConnectionTimeout }

/-- Fields actually present in the JSON configuration file. Go's
`json.Decoder.Decode` into a pre-filled struct overwrites exactly the fields
present in the document and leaves absent fields at their prior values, so a
decoded document is modelled as one `Option` per field. -/
structure ConfigFileData where
  listenAddr : Option String
  server : Option (List String)
  connectionTimeout : Option Int
deriving Repr, DecidableEq

/-- Result of `os.Open` followed by JSON decoding: either the file could not
be opened, or it was opened and decoding either failed with an error message
or produced the fields of the document. -/
inductive FileOpenResult where
  | openError
  | opened (decoded : Except String ConfigFileData)
deriving Repr

/-- Embedding of `loadConfig` (main.go lines 148-173): on open failure the
defaults are returned with a nil error; otherwise the document's fields
overwrite the pre-filled defaults, and a decode failure is returned as an
error. -/
def loadConfig (file : FileOpenResult) : Except String Config :=
  match file with
  | .openError => .ok defaultConfig
  | .opened (.error e) => .error ("failed to decode configuration: " ++ e)
  | .opened (.ok d) =>
      .ok { listenAddr := d.listenAddr.getD DefaultListenAddr
            server := d.server.getD DefaultServers
            connectionTimeout := d.connectionTimeout.getD DefaultConnectionTimeout }

/-- Embedding of Go's `rand.Intn`: for a bound `n > 0` it yields a value in
`[0, n)` determined by the generator's state `r` (modelled as reduction mod
`n`); for `n = 0` the Go function panics, modelled as `none`. -/
def randIntn (r n : Nat) : Option Nat :=
  if n = 0 then none else some (r % n)

/-- Index chosen by `chooseBackend` (main.go lines 142-145): the call
re-seeds the process generator from the clock and draws `rand.Intn (len
servers)`; `r` is the entropy of that draw. -/
def chooseBackendIdx (r : Nat) (servers : List String) : Option Nat :=
  randIntn r servers.length

/-- Embedding of `chooseBackend` (main.go lines 142-145):
`servers[rand.Intn(len(servers))]`. `none` models the `rand.Intn` panic on
an empty slice. -/
def chooseBackend (r : Nat) (servers : List String) : Option String :=
  (chooseBackendIdx r servers).bind fun i => servers[i]?

/-- Copy direction of one of the two `io.Copy` goroutines in `proxy`. -/
inductive Dir where
  | clientToBackend
  | backendToClient
deriving Repr, DecidableEq

/-- Outcome of one `io.Copy` goroutine that terminated: the byte count it
copied and the error it logged (`none` = clean end-of-stream). -/
structure CopyOutcome where
  bytesCopied : Nat
  copyErr : Option String
deriving Repr, DecidableEq

/-- Observable events performed by one run of `proxy`, in order. -/
inductive Event where
  | dial (backend : String) (timeoutSeconds : Nat)
  | copied (d : Dir) (bytes : Nat) (logged : Option String)
  | waitBothCopies
  | closeBackend
  | closeClient
  | ret (err : Option String)
deriving Repr, DecidableEq

/-- Result of one run of `proxy`: the trace of events it performed and
whether the function terminated (returned to its caller) at all. -/
structure ProxyRun where
  trace : List Event
  terminated : Bool
deriving Repr, DecidableEq

/-- Result of `net.DialTimeout` on the backend address. -/
inductive DialResult where
  | failure (msg : String)
  | success
deriving Repr, DecidableEq

/-- Dial timeout used by `proxy`: `net.DialTimeout("tcp", backend,
time.Second*5)` — the literal 5 seconds in main.go line 104. -/
def dialTimeoutSeconds : Nat := 5

/-- Embedding of `proxy` (main.go lines 100-139). `c2b` and `b2c` are what
the environment makes of the two copy goroutines: `some o` if the goroutine
terminated with outcome `o`, `none` if it blocks forever (e.g. its source
never reaches end-of-stream). Defers run LIFO on return: `c.Close()` is
registered first and `bc.Close()` second, so the backend closes before the
client, both after `wg.Wait()` and before the `return`. If either copy
goroutine never terminates, `wg.Wait()` blocks forever, so no close and no
return ever happen. On a dial failure the copies are never started: the only
deferred call is `c.Close()`, which runs before the error return. -/
def proxy (backend : String) (dial : DialResult)
    (c2b b2c : Option CopyOutcome) : ProxyRun :=
  match dial with
  | .failure msg =>
      { trace := [.dial backend dialTimeoutSeconds,
                  .closeClient,
                  .ret (some ("failed to connect to backend " ++ backend ++ ": " ++ msg))]
        terminated := true }
  | .success =>
      match c2b, b2c with
      | some o1, some o2 =>
          { trace := [.dial backend dialTimeoutSeconds,
                      .copied .clientToBackend o1.bytesCopied o1.copyErr,
                      .copied .backendToClient o2.bytesCopied o2.copyErr,
                      .waitBothCopies,
                      .closeBackend,
                      .closeClient,
                      .ret none]
            terminated := true }
      | some o1, none =>
          { trace := [.dial backend dialTimeoutSeconds,
                      .copied .clientToBackend o1.bytesCopied o1.copyErr]
            terminated := false }
      | none, some o2 =>
          { trace := [.dial backend dialTimeoutSeconds,
                      .copied .backendToClient o2.bytesCopied o2.copyErr]
            terminated := false }
      | none, none =>
          { trace := [.dial backend dialTimeoutSeconds]
            terminated := false }

/-- Per-connection goroutine spawned by `main` (lines 76-82): it calls
`proxy(backend, conn)` passing only the backend address and the connection —
in particular no value from the configuration. -/
def handleConn (_config : Config) (backend : String) (dial : DialResult)
    (c2b b2c : Option CopyOutcome) : ProxyRun :=
  proxy backend dial c2b b2c

/-- Test for a client-close event. -/
def isCloseClient : Event → Bool
  | .closeClient => true
  | _ => false

/-- Test for a backend-close event. -/
def isCloseBackend : Event → Bool
  | .closeBackend => true
  | _ => false

/-- Test for the event of returning from `proxy`. -/
def isRet : Event → Bool
  | .ret _ => true
  | _ => false

/-- Test for the `wg.Wait()` join of the two copy goroutines. -/
def isWaitBoth : Event → Bool
  | .waitBothCopies => true
  | _ => false

/-- Test for the termination of either copy goroutine. -/
def isCopied : Event → Bool
  | .copied _ _ _ => true
  | _ => false

/-- Value returned by the run, read off the trace: `some e` if the function
returned with error value `e`, `none` if it never returned. -/
def retValue (t : List Event) : Option (Option String) :=
  t.findSome? fun e => match e with
    | .ret r => some r
    | _ => none

/-- Timeouts of all dial attempts in a trace. -/
def dialTimeouts (t : List Event) : List Nat :=
  t.filterMap fun e => match e with
    | .dial _ n => some n
    | _ => none

/-- Bytes forwarded in direction `d` over the whole trace. -/
def bytesForwarded (d : Dir) (t : List Event) : Nat :=
  (t.filterMap fun e => match e with
    | .copied d2 n _ => if d2 = d then some n else none
    | _ => none).sum

/-- Some event satisfying `p` occurs strictly before some event satisfying
`q` in the trace. -/
def occursBefore (p q : Event → Bool) (t : List Event) : Prop :=
  ∃ i j : Nat, i < j ∧ (∃ e, t[i]? = some e ∧ p e = true) ∧
    (∃ e, t[j]? = some e ∧ q e = true)

/-- Result of one `listener.Accept()` call: either an error (with a flag
recording whether the error reports that the listener itself was closed) or
an accepted connection. -/
inductive AcceptResult where
  | acceptErr (listenerClosed : Bool) (msg : String)
  | accepted (connId : Nat)
deriving Repr, DecidableEq

/-- Environment input for one iteration of `main`'s loop: the accept result,
and whether a termination signal has been delivered to the `sig` channel or
the idle timer channel has fired by this point. -/
structure LoopInput where
  accept : AcceptResult
  sigPending : Bool
  timerFired : Bool
deriving Repr, DecidableEq

/-- Program phase of `main` after startup: inside the `for` accept loop,
past the loop at the `select` on the signal/timer channels, or returned. -/
inductive MainPhase where
  | looping
  | atSelect
  | stopped
deriving Repr, DecidableEq

/-- Side effects of one loop iteration of `main`. -/
structure StepEffect where
  loggedAcceptError : Bool
  relaySpawned : Bool
  timerReset : Bool
deriving Repr, DecidableEq

/-- One step of `main` after startup (lines 63-96). In the `for` loop an
accept error is logged and the loop `continue`s — the body never reads the
`sig` or timer channels and contains no `break` or `return`, so the phase
stays `looping` whatever the input. An accepted connection spawns the relay
goroutine and resets the idle timer. The `select` (lines 89-96) blocks until
the signal or the timer channel is ready and then returns from `main`. -/
def listenerLoopStep (p : MainPhase) (inp : LoopInput) : MainPhase × StepEffect :=
  match p with
  | .looping =>
      match inp.accept with
      | .acceptErr _ _ =>
          (.looping, { loggedAcceptError := true, relaySpawned := false, timerReset := false })
      | .accepted _ =>
          (.looping, { loggedAcceptError := false, relaySpawned := true, timerReset := true })
  | .atSelect =>
      if inp.sigPending || inp.timerFired then
        (.stopped, { loggedAcceptError := false, relaySpawned := false, timerReset := false })
      else
        (.atSelect, { loggedAcceptError := false, relaySpawned := false, timerReset := false })
  | .stopped =>
      (.stopped, { loggedAcceptError := false, relaySpawned := false, timerReset := false })

/-- Phase of `main` after consuming a whole sequence of environment inputs,
starting from phase `p`. -/
def listenerRun (p : MainPhase) (inps : List LoopInput) : MainPhase :=
  inps.foldl (fun q i => (listenerLoopStep q i).1) p

/-- Evaluation lemma for `chooseBackend` on a non-empty list: the chosen
element is the one at index `r % length`. -/
theorem chooseBackend_eq_getElem (r : Nat) (servers : List String)
    (h : 0 < servers.length) :
    chooseBackend r servers = some (servers.get ⟨r % servers.length, Nat.mod_lt r h⟩) := by
  have hne : servers.length ≠ 0 := Nat.pos_iff_ne_zero.mp h
  simp [chooseBackend, chooseBackendIdx, randIntn, hne,
    List.getElem?_eq_getElem (Nat.mod_lt r h)]

/-- C10: for every filename that cannot be opened, `loadConfig` returns a
nil error together with the default configuration (listen address
"localhost:8080", the three default backend servers, 60-second timeout). -/
theorem C10_missing_file_yields_defaults :
    loadConfig .openError =
      .ok { listenAddr := "localhost:8080"
            server := ["localhost:5001", "localhost:5002", "localhost:5003"]
            connectionTimeout := 60 } := rfl

/-- C8: `chooseBackend` is unguarded — on an empty server list `rand.Intn 0`
panics (modelled `none`) — and `loadConfig` does not enforce non-emptiness:
a config file declaring `"server": []` decodes without error to a
configuration whose server list is empty, on which the selector panics. -/
theorem C8_empty_servers_unguarded :
    (∀ r : Nat, chooseBackend r [] = none) ∧
    ∃ cfg : Config,
      loadConfig (.opened (.ok
        { listenAddr := none, server := some [], connectionTimeout := none })) = .ok cfg ∧
      cfg.server = [] ∧ ∀ r : Nat, chooseBackend r cfg.server = none := by
  refine ⟨fun r => rfl, ⟨_, rfl, rfl, fun r => rfl⟩⟩

/-- C6: for every non-empty list of backend addresses and every random draw,
`chooseBackend` returns an element of the list. -/
theorem C6_choose_returns_member (r : Nat) (servers : List String)
    (h : servers ≠ []) :
    ∃ s, chooseBackend r servers = some s ∧ s ∈ servers := by
  have hlen : 0 < servers.length := List.length_pos.mpr h
  exact ⟨_, chooseBackend_eq_getElem r servers hlen, List.get_mem _ _ _⟩

/-- Witness for C6 at a concrete draw and server list. -/
theorem C6_choose_returns_member_witness :
    (["localhost:5001", "localhost:5002"] : List String) ≠ [] ∧
    ∃ s, chooseBackend 3 ["localhost:5001", "localhost:5002"] = some s ∧
      s ∈ (["localhost:5001", "localhost:5002"] : List String) :=
  ⟨by decide, C6_choose_returns_member 3 _ (by decide)⟩

/-- C4: the selection is not static across calls: on a duplicate-free server
list of size at least 2, different entropy draws select different backends,
and some draw selects a backend other than the element at index 0. -/
theorem C4_choice_not_static (servers : List String)
    (h2 : 2 ≤ servers.length) (hnd : servers.Nodup) :
    (∃ r1 r2 : Nat, chooseBackend r1 servers ≠ chooseBackend r2 servers) ∧
    (∃ r : Nat, chooseBackend r servers ≠ servers[0]?) := by
  have h0 : 0 < servers.length := Nat.lt_of_lt_of_le (by norm_num) h2
  have h1 : 1 < servers.length := h2
  have e0 : chooseBackend 0 servers = some (servers.get ⟨0, h0⟩) := by
    have := chooseBackend_eq_getElem 0 servers h0
    simpa [Nat.zero_mod] using this
  have e1 : chooseBackend 1 servers = some (servers.get ⟨1, h1⟩) := by
    have := chooseBackend_eq_getElem 1 servers h0
    simpa [Nat.mod_eq_of_lt h1] using this
  have hget : servers.get ⟨0, h0⟩ ≠ servers.get ⟨1, h1⟩ := by
    intro h
    have := (List.Nodup.get_inj_iff hnd).mp h
    simp [Fin.ext_iff] at this
  refine ⟨⟨0, 1, ?_⟩, ⟨1, ?_⟩⟩
  · rw [e0, e1]
    intro h
    exact hget (Option.some.inj h)
  · rw [e1, List.getElem?_eq_getElem h0]
    intro h
    exact hget (Option.some.inj h).symm

/-- Witness for C4 at a concrete duplicate-free two-element server list. -/
theorem C4_choice_not_static_witness :
    (2 ≤ (["localhost:5001", "localhost:5002"] : List String).length ∧
      (["localhost:5001", "localhost:5002"] : List String).Nodup) ∧
    (∃ r1 r2 : Nat, chooseBackend r1 ["localhost:5001", "localhost:5002"] ≠
        chooseBackend r2 ["localhost:5001", "localhost:5002"]) ∧
    (∃ r : Nat, chooseBackend r ["localhost:5001", "localhost:5002"] ≠
        (["localhost:5001", "localhost:5002"] : List String)[0]?) :=
  ⟨⟨by decide, by decide⟩, C4_choice_not_static _ (by decide) (by decide)⟩

/-- C3: whenever the dial to the backend fails, `proxy` terminates returning
a backend-unreachable error, the client connection is closed strictly before
the return, and zero bytes were forwarded in either direction. -/
theorem C3_dial_failure_closes_client_zero_bytes (backend msg : String)
    (c2b b2c : Option CopyOutcome) :
    (proxy backend (.failure msg) c2b b2c).terminated = true ∧
    retValue (proxy backend (.failure msg) c2b b2c).trace =
      some (some ("failed to connect to backend " ++ backend ++ ": " ++ msg)) ∧
    occursBefore isCloseClient isRet (proxy backend (.failure msg) c2b b2c).trace ∧
    bytesForwarded .clientToBackend (proxy backend (.failure msg) c2b b2c).trace = 0 ∧
    bytesForwarded .backendToClient (proxy backend (.failure msg) c2b b2c).trace = 0 := by
  refine ⟨rfl, rfl, ⟨1, 2, by norm_num, ⟨_, rfl, rfl⟩, ⟨_, rfl, rfl⟩⟩, rfl, rfl⟩

/-- C9: whenever the dial succeeds and both copy tasks terminate, `proxy`
returns a nil error, whatever the byte counts and whatever read/write errors
the copy tasks hit; those errors appear in the trace only as logging inside
the copy tasks, never in the return value. -/
theorem C9_nil_error_after_successful_dial (backend : String) (o1 o2 : CopyOutcome) :
    retValue (proxy backend .success (some o1) (some o2)).trace = some none ∧
    Event.copied .clientToBackend o1.bytesCopied o1.copyErr ∈
      (proxy backend .success (some o1) (some o2)).trace ∧
    Event.copied .backendToClient o2.bytesCopied o2.copyErr ∈
      (proxy backend .success (some o1) (some o2)).trace := by
  refine ⟨rfl, ?_, ?_⟩ <;> simp [proxy]

/-- C7: every outbound dial performed by the per-connection handler uses the
fixed 5-second timeout, and the handler's behaviour does not depend on the
configuration (in particular not on its connection/idle timeout value). -/
theorem C7_fixed_dial_timeout (cfg cfg2 : Config) (backend : String)
    (dial : DialResult) (c2b b2c : Option CopyOutcome) :
    dialTimeouts (handleConn cfg backend dial c2b b2c).trace = [5] ∧
    dialTimeoutSeconds = 5 ∧
    handleConn cfg backend dial c2b b2c = handleConn cfg2 backend dial c2b b2c := by
  refine ⟨?_, rfl, rfl⟩
  cases dial with
  | failure msg => rfl
  | success => cases c2b <;> cases b2c <;> rfl

/-- C2 counterexample: after a successful dial, if the client-to-backend
copy task terminates (here: after 4 bytes, clean end-of-stream) while the
backend-to-client copy task stays blocked, the relay closes neither the
client nor the backend connection and never completes — refuting the claim
that both connections are closed as soon as either copy task terminates. -/
theorem C2_close_on_either_counterexample :
    (proxy "localhost:5001" .success (some ⟨4, none⟩) none).trace.any isCopied = true ∧
    (proxy "localhost:5001" .success (some ⟨4, none⟩) none).trace.any isCloseClient = false ∧
    (proxy "localhost:5001" .success (some ⟨4, none⟩) none).trace.any isCloseBackend = false ∧
    (proxy "localhost:5001" .success (some ⟨4, none⟩) none).terminated = false := by
  decide

/-- C2 amended: the relay waits for BOTH copy tasks to terminate; only then
does it close first the backend and then the client connection, and both are
closed before it reports completion. (Teardown on the termination of a
single direction is not performed.) -/
theorem C2_close_both_after_both_copies (backend : String) (o1 o2 : CopyOutcome) :
    (proxy backend .success (some o1) (some o2)).terminated = true ∧
    occursBefore isCopied isWaitBoth (proxy backend .success (some o1) (some o2)).trace ∧
    occursBefore isWaitBoth isCloseBackend (proxy backend .success (some o1) (some o2)).trace ∧
    occursBefore isCloseBackend isCloseClient (proxy backend .success (some o1) (some o2)).trace ∧
    occursBefore isCloseClient isRet (proxy backend .success (some o1) (some o2)).trace := by
  refine ⟨rfl,
    ⟨2, 3, by norm_num, ⟨_, rfl, rfl⟩, ⟨_, rfl, rfl⟩⟩,
    ⟨3, 4, by norm_num, ⟨_, rfl, rfl⟩, ⟨_, rfl, rfl⟩⟩,
    ⟨4, 5, by norm_num, ⟨_, rfl, rfl⟩, ⟨_, rfl, rfl⟩⟩,
    ⟨5, 6, by norm_num, ⟨_, rfl, rfl⟩, ⟨_, rfl, rfl⟩⟩⟩

/-- C5 counterexample: on an accept error whose message indicates the
listener itself was closed, the loop does NOT exit — the next phase is still
`looping`, not the phase past the loop nor the stopped phase — refuting the
claim that the loop exits cleanly on a closed-listener error. -/
theorem C5_closed_listener_counterexample :
    (listenerLoopStep .looping
      { accept := .acceptErr true "accept tcp: use of closed network connection"
        sigPending := false
        timerFired := false }).1 = .looping ∧
    MainPhase.looping ≠ .atSelect ∧ MainPhase.looping ≠ .stopped := by
  decide

/-- C5 amended: on every accept error the loop logs the error, starts no
relay, does not reset the idle timer, and proceeds to the next accept; this
holds even when the error indicates the listener was closed — the loop never
exits on an accept error. -/
theorem C5_accept_error_logs_and_continues (listenerClosed : Bool) (msg : String)
    (s t : Bool) :
    listenerLoopStep .looping
      { accept := .acceptErr listenerClosed msg, sigPending := s, timerFired := t } =
      (.looping,
        { loggedAcceptError := true, relaySpawned := false, timerReset := false }) := rfl

/-- C1: the accept loop of `main` contains no break or return, so whatever
the environment does — accept errors, accepted connections, a delivered
termination signal, an expired idle timer — the program never leaves the
`looping` phase: the `select` on the signal/timer channels is unreachable
and the Draining/Stopped transition never happens, contradicting the claimed
Running -> Draining -> Stopped shutdown. -/
theorem C1_shutdown_never_reached (inps : List LoopInput) :
    listenerRun .looping inps = .looping ∧ listenerRun .looping inps ≠ .stopped := by
  have h : ∀ l : List LoopInput, listenerRun .looping l = .looping := by
    intro l
    induction l with
    | nil => rfl
    | cons i rest ih =>
        obtain ⟨a, s, t⟩ := i
        cases a <;> exact ih

  exact ⟨h inps, by rw [h inps]; exact fun hc => MainPhase.noConfusion hc⟩

end LoadBalancer
